import Mathlib

/-!
# MusicReader face-control engine: a shallow embedding

This file embeds the gesture-detection core of the MusicReader repository
(`src/unnamed/part_005`, the refined adaptive-threshold variant of
`src/faceControl.js`, together with `movingAverage` from `src/utils.js`)
and proves properties of it.

Modelling conventions:
* JS numbers are rationals (`ℚ`).  All arithmetic the engine performs on
  signal values is exact field arithmetic, so `ℚ` is faithful; the one
  place where JS produces a non-finite value (division by zero in
  `eyeAspectRatio`) is modelled by the explicit `JsNum` type.
* The per-frame input of `processFrame` is the pair of clock readings the
  source draws (`performance.now()` and `Date.now()`) plus the face
  detection result.  The landmark-to-signal stage
  (`calculateSeparateEAR` / `calculateYaw`) is factored out: a detected
  face is represented by the triple of signals (left EAR, right EAR, yaw)
  it produces, which is the only data the rest of `processFrame` reads.
* Mutable module-level state becomes the explicit `EngineState` record,
  and `processFrame` is a state-passing step function.
* In the source, lines 270-273 of `processFrame` read the variable `now`
  before its `const now = Date.now()` declaration on line 286.  In an ES
  module this is a temporal-dead-zone access and throws a
  `ReferenceError`.  The embedding models this faithfully: the step
  result carries a `threw` flag, and on a throwing frame the state
  reflects exactly the mutations performed before the throwing line.
* The calibration loop's wall-clock `while` is abstracted to the list of
  detection results of its sampled ticks; `stddev` takes a real square
  root, so the calibration-side noise record lives in `ℝ`.
-/

namespace MusicReader

/-- A JS number that may be non-finite, used where the source can divide
by zero (`eyeAspectRatio`).  `fin q` is an ordinary finite value. -/
inductive JsNum where
  | fin : ℚ → JsNum
  | inf : JsNum
  | negInf : JsNum
  | nan : JsNum
deriving DecidableEq, Repr

/-- JS division semantics on finite operands: division by zero yields
Infinity / -Infinity / NaN depending on the numerator's sign. -/
def jsDiv (a b : ℚ) : JsNum :=
  if b = 0 then (if a = 0 then JsNum.nan else if 0 < a then JsNum.inf else JsNum.negInf)
  else JsNum.fin (a / b)

/-- `eyeAspectRatio` (part_005 lines 548-554) over the three landmark
distances it computes: `(verticalA + verticalB) / (2 * horizontal)`.
Distances are nonnegative; there is no guard on `horizontal = 0`. -/
def eyeAspectRatio (verticalA verticalB horizontal : ℚ) : JsNum :=
  jsDiv (verticalA + verticalB) (2 * horizontal)

/-- `mean` (part_005 lines 600-603): `0` on an empty list. -/
def mean (values : List ℚ) : ℚ :=
  if values.length = 0 then 0 else values.sum / values.length

/-- The sample variance inside `stddev` (part_005 line 608). -/
def variance (values : List ℚ) : ℚ :=
  (values.map (fun v => (v - mean values) ^ 2)).sum / ((values.length : ℚ) - 1)

/-- `stddev` (part_005 lines 605-610): `0` for fewer than two samples,
otherwise the square root of the sample variance. -/
noncomputable def stddev (values : List ℚ) : ℝ :=
  if values.length < 2 then 0 else Real.sqrt ((variance values : ℚ) : ℝ)

/-- `median` (part_005 lines 612-620): `0` on an empty list, else the
middle of the ascending sort (mean of the two middles for even length). -/
def median (values : List ℚ) : ℚ :=
  if values.length = 0 then 0 else
  let sorted := values.insertionSort (· ≤ ·)
  let mid := values.length / 2
  if values.length % 2 = 0 then (sorted.getD (mid - 1) 0 + sorted.getD mid 0) / 2
  else sorted.getD mid 0

/-- `movingAverage` from `src/utils.js` lines 290-294: `0` on an empty
list, else the mean of the last `windowSize` entries (`slice(-w)`; for a
zero window JS `slice(-0)` returns the whole array). -/
def movingAverage (values : List ℚ) (windowSize : ℕ) : ℚ :=
  if values.length = 0 then 0 else
  let window := if windowSize = 0 then values else values.drop (values.length - windowSize)
  window.sum / window.length

/-- The gesture vocabulary of `triggerNext` / `triggerPrev`. -/
inductive Gesture where
  | wink_left | wink_right | double_blink | long_blink | head_left | head_right
deriving DecidableEq, Repr

/-- A navigation trigger (`'next'` / `'prev'`). -/
inductive Trig where
  | next | prev
deriving DecidableEq, Repr

/-- `winkState` values (part_005 line 43). -/
inductive WinkState where
  | none | left_winking | right_winking
deriving DecidableEq, Repr

/-- `headTurnState` values (part_005 line 48 and lines 430, 442). -/
inductive HeadTurnState where
  | center | left | right | triggered_left | triggered_right
deriving DecidableEq, Repr

/-- A blink record: `start`/`end` timestamps; the source's `end` field is
called `stop` here because `end` is reserved in Lean. -/
structure Blink where
  start : ℚ
  stop : Option ℚ
deriving DecidableEq, Repr

/-- The engine `Config` (part_005 lines 19-27, minus the callbacks and
debug sink, which do not influence detection). -/
structure Config where
  sensitivity : ℚ
  cooldownMs : ℚ
  triggerNext : Gesture
  triggerPrev : Gesture
deriving DecidableEq, Repr

/-- Default configuration (part_005 lines 23-26). -/
def defaultConfig : Config :=
  { sensitivity := 1, cooldownMs := 900,
    triggerNext := Gesture.double_blink, triggerPrev := Gesture.long_blink }

/-- Calibration baselines (part_005 lines 52-56). -/
structure Baseline where
  leftEar : ℚ
  rightEar : ℚ
  yaw : ℚ
deriving DecidableEq, Repr

/-- Noise estimate as the engine consumes it (part_005 lines 58-63). -/
structure Noise where
  leftEar : ℚ
  rightEar : ℚ
  diff : ℚ
  yaw : ℚ
deriving DecidableEq, Repr

/-- `BASE_THRESHOLDS` (part_005 lines 66-87). -/
structure Thresholds where
  minEarDrop : ℚ
  minOpenDrop : ℚ
  noiseMultClose : ℚ
  noiseMultOpen : ℚ
  diffMin : ℚ
  diffNoiseMult : ℚ
  blinkMinMs : ℚ
  blinkMaxMs : ℚ
  longBlinkMs : ℚ
  longBlinkMaxMs : ℚ
  doubleBlinkWindowMs : ℚ
  blinkSyncMs : ℚ
  winkMinMs : ℚ
  winkMaxMs : ℚ
  winkCooldownMs : ℚ
  headTurnDeg : ℚ
  headReturnDeg : ℚ
  baselineEma : ℚ
  rearmOpenFrames : ℕ
  targetFps : ℚ
deriving DecidableEq, Repr

def BASE_THRESHOLDS : Thresholds :=
  { minEarDrop := 0.12
    minOpenDrop := 0.06
    noiseMultClose := 6
    noiseMultOpen := 3
    diffMin := 0.04
    diffNoiseMult := 3
    blinkMinMs := 60
    blinkMaxMs := 350
    longBlinkMs := 420
    longBlinkMaxMs := 900
    doubleBlinkWindowMs := 700
    blinkSyncMs := 80
    winkMinMs := 60
    winkMaxMs := 500
    winkCooldownMs := 300
    headTurnDeg := 5
    headReturnDeg := 3
    baselineEma := 0.01
    rearmOpenFrames := 3
    targetFps := 30 }

/-- All mutable module-level detection state of part_005
(lines 11-16, 30-49, 52-63). -/
structure EngineState where
  isRunning : Bool
  isPaused : Bool
  animationId : Option ℕ
  lastTriggerTime : ℚ
  blinkHistory : List Blink
  leftEarHistory : List ℚ
  rightEarHistory : List ℚ
  yawHistory : List ℚ
  leftClosedSince : Option ℚ
  rightClosedSince : Option ℚ
  blinkState : Option Blink
  openFrames : ℕ
  rearmReady : Bool
  lastFrameTime : ℚ
  winkState : WinkState
  winkStartTime : ℚ
  lastWinkTrigger : ℚ
  headTurnState : HeadTurnState
  lastHeadTurnTrigger : ℚ
  baseline : Baseline
  noise : Noise
deriving DecidableEq, Repr

/-- The initial values of the module-level state. -/
def initState : EngineState :=
  { isRunning := false
    isPaused := false
    animationId := Option.none
    lastTriggerTime := 0
    blinkHistory := []
    leftEarHistory := []
    rightEarHistory := []
    yawHistory := []
    leftClosedSince := Option.none
    rightClosedSince := Option.none
    blinkState := Option.none
    openFrames := 0
    rearmReady := true
    lastFrameTime := 0
    winkState := WinkState.none
    winkStartTime := 0
    lastWinkTrigger := 0
    headTurnState := HeadTurnState.center
    lastHeadTurnTrigger := 0
    baseline := { leftEar := 0.25, rightEar := 0.25, yaw := 0 }
    noise := { leftEar := 0.02, rightEar := 0.02, diff := 0.02, yaw := 0.5 } }

/-- The signals a detected face yields for one frame: the outputs of
`calculateSeparateEAR` and `calculateYaw` on its landmarks. -/
structure FaceSignals where
  leftEar : ℚ
  rightEar : ℚ
  yaw : ℚ
deriving DecidableEq, Repr

/-- One invocation of `processFrame`: the two clock readings it takes and
the face-detection result (`Option.none` = no face found). -/
structure FrameInput where
  perfNow : ℚ
  dateNow : ℚ
  face : Option FaceSignals
deriving DecidableEq, Repr

/-- Result of one `processFrame` call: the post-call module state, the
trigger dispatched this frame (with its `triggerReason`), and whether the
call threw (the temporal-dead-zone read of `now`, lines 270/272). -/
structure FrameResult where
  st : EngineState
  trig : Option (Trig × Gesture)
  threw : Bool
deriving DecidableEq, Repr

/-- The wink binding match inside the trigger block (part_005 lines
350-366): a wink candidate fires `next`/`prev` according to the
configured bindings. -/
def winkBinding (cfg : Config) (winkTriggered : Option Gesture) : Option (Trig × Gesture) :=
  match winkTriggered with
  | some Gesture.wink_left =>
    if cfg.triggerNext = Gesture.wink_left then some (Trig.next, Gesture.wink_left)
    else if cfg.triggerPrev = Gesture.wink_left then some (Trig.prev, Gesture.wink_left)
    else Option.none
  | some Gesture.wink_right =>
    if cfg.triggerNext = Gesture.wink_right then some (Trig.next, Gesture.wink_right)
    else if cfg.triggerPrev = Gesture.wink_right then some (Trig.prev, Gesture.wink_right)
    else Option.none
  | _ => Option.none

/-- The guarded wink trigger (part_005 line 349: `winkTriggered && !inCooldown`). -/
def winkArbitrate (cfg : Config) (inCooldown : Bool) (winkTriggered : Option Gesture) :
    Option (Trig × Gesture) :=
  if inCooldown then Option.none else winkBinding cfg winkTriggered

/-- Double-blink candidate (part_005 lines 374-396): the two most recent
completed short blinks, with a gap strictly between the 80 ms floor and
`doubleBlinkWindowMs`, the second having ended within 300 ms. -/
def doubleBlinkCandidate (cfg : Config) (blinkHistory : List Blink) (now : ℚ) :
    Option (Trig × Gesture) :=
  let completedBlinks := blinkHistory.filter (fun b =>
    match b.stop with
    | Option.none => false
    | some e =>
      decide (e - b.start ≥ BASE_THRESHOLDS.blinkMinMs) &&
        decide (e - b.start ≤ BASE_THRESHOLDS.blinkMaxMs))
  if completedBlinks.length ≥ 2 then
    -- `slice(-2)` then indices 0 and 1, in bounds thanks to the length guard
    let lastTwo := completedBlinks.drop (completedBlinks.length - 2)
    let blink1 := lastTwo.getD 0 { start := 0, stop := Option.none }
    let blink2 := lastTwo.getD 1 { start := 0, stop := Option.none }
    let e1 := blink1.stop.getD 0
    let e2 := blink2.stop.getD 0
    let timeBetweenBlinks := blink2.start - e1
    if decide (now - e2 < 300) &&
        decide (timeBetweenBlinks < BASE_THRESHOLDS.doubleBlinkWindowMs) &&
        decide (timeBetweenBlinks > 80) then
      if cfg.triggerNext = Gesture.double_blink then some (Trig.next, Gesture.double_blink)
      else if cfg.triggerPrev = Gesture.double_blink then some (Trig.prev, Gesture.double_blink)
      else Option.none
    else Option.none
  else Option.none

/-- Long-blink candidate (part_005 lines 399-416). -/
def longBlinkCandidate (cfg : Config) (blinkHistory : List Blink) (now : ℚ) :
    Option (Trig × Gesture) :=
  let longBlinks := blinkHistory.filter (fun b =>
    match b.stop with
    | Option.none => false
    | some e =>
      decide (e - b.start ≥ BASE_THRESHOLDS.longBlinkMs) &&
        decide (e - b.start ≤ BASE_THRESHOLDS.longBlinkMaxMs) &&
        decide (now - e < 300))
  if longBlinks.length > 0 then
    if cfg.triggerNext = Gesture.long_blink then some (Trig.next, Gesture.long_blink)
    else if cfg.triggerPrev = Gesture.long_blink then some (Trig.prev, Gesture.long_blink)
    else Option.none
  else Option.none

/-- Head-turn candidate (part_005 lines 419-445): fires only from the
`left`/`right` states, gated by its own `cooldownMs` spacing, and moves
the machine to the corresponding `triggered_*` state; returns the
candidate together with the updated state and `lastHeadTurnTrigger`. -/
def headTurnCandidate (cfg : Config) (headTurnState : HeadTurnState)
    (lastHeadTurnTrigger now : ℚ) :
    Option (Trig × Gesture) × HeadTurnState × ℚ :=
  if headTurnState = HeadTurnState.right ∧ now - lastHeadTurnTrigger > cfg.cooldownMs then
    let t : Option (Trig × Gesture) :=
      if cfg.triggerNext = Gesture.head_right then some (Trig.next, Gesture.head_right)
      else if cfg.triggerPrev = Gesture.head_right then some (Trig.prev, Gesture.head_right)
      else Option.none
    if t.isSome then (t, HeadTurnState.triggered_right, now)
    else (t, headTurnState, lastHeadTurnTrigger)
  else if headTurnState = HeadTurnState.left ∧ now - lastHeadTurnTrigger > cfg.cooldownMs then
    let t : Option (Trig × Gesture) :=
      if cfg.triggerNext = Gesture.head_left then some (Trig.next, Gesture.head_left)
      else if cfg.triggerPrev = Gesture.head_left then some (Trig.prev, Gesture.head_left)
      else Option.none
    if t.isSome then (t, HeadTurnState.triggered_left, now)
    else (t, headTurnState, lastHeadTurnTrigger)
  else (Option.none, headTurnState, lastHeadTurnTrigger)

/-- The trigger arbitration of part_005 lines 344-446: wink first, then
(if not in cooldown, nothing fired yet, and the rearm gate is open)
double blink, long blink, head turn.  Returns the fired trigger and the
updated head-turn state and timer. -/
def detectTriggers (cfg : Config) (now : ℚ) (inCooldown rearmReady : Bool)
    (winkTriggered : Option Gesture) (blinkHistory : List Blink)
    (headTurnState : HeadTurnState) (lastHeadTurnTrigger : ℚ) :
    Option (Trig × Gesture) × HeadTurnState × ℚ :=
  match winkArbitrate cfg inCooldown winkTriggered with
  | some e => (some e, headTurnState, lastHeadTurnTrigger)
  | Option.none =>
    if !inCooldown && rearmReady then
      match doubleBlinkCandidate cfg blinkHistory now with
      | some e => (some e, headTurnState, lastHeadTurnTrigger)
      | Option.none =>
        match longBlinkCandidate cfg blinkHistory now with
        | some e => (some e, headTurnState, lastHeadTurnTrigger)
        | Option.none => headTurnCandidate cfg headTurnState lastHeadTurnTrigger now
    else (Option.none, headTurnState, lastHeadTurnTrigger)

/-- The wink state machine (part_005 lines 291-315).  Returns the wink
candidate resolved this frame (if any) and the updated
`winkState` / `winkStartTime`. -/
def winkMachine (winkState : WinkState) (winkStartTime now : ℚ)
    (winkCooldown isLeftWink isRightWink bothClosed : Bool) :
    Option Gesture × WinkState × ℚ :=
  if !winkCooldown then
    if isLeftWink && !decide (winkState = WinkState.left_winking) && !bothClosed then
      (Option.none, WinkState.left_winking, now)
    else if isRightWink && !decide (winkState = WinkState.right_winking) && !bothClosed then
      (Option.none, WinkState.right_winking, now)
    else if !isLeftWink && !isRightWink && !decide (winkState = WinkState.none) then
      let winkDuration := now - winkStartTime
      let trig : Option Gesture :=
        if decide (winkDuration ≥ BASE_THRESHOLDS.winkMinMs) &&
            decide (winkDuration ≤ BASE_THRESHOLDS.winkMaxMs) then
          match winkState with
          | WinkState.left_winking => some Gesture.wink_left
          | WinkState.right_winking => some Gesture.wink_right
          | WinkState.none => Option.none
        else Option.none
      (trig, WinkState.none, winkStartTime)
    else (Option.none, winkState, winkStartTime)
  else (Option.none, winkState, winkStartTime)

/-- The blink interval tracker (part_005 lines 318-326): open a blink
record while both eyes are closed, close and append it on reopen. -/
def blinkUpdate (blinkState : Option Blink) (blinkHistory : List Blink)
    (bothClosed : Bool) (now : ℚ) : Option Blink × List Blink :=
  if bothClosed then
    match blinkState with
    | Option.none => (some { start := now, stop := Option.none }, blinkHistory)
    | some b => (some b, blinkHistory)
  else
    match blinkState with
    | some b =>
      match b.stop with
      | Option.none => (Option.none, blinkHistory ++ [{ start := b.start, stop := some now }])
      | some _ => (some b, blinkHistory)
    | Option.none => (Option.none, blinkHistory)

/-- The head-turn state machine update (part_005 lines 336-342). -/
def headTurnUpdate (headTurnState : HeadTurnState) (yawDelta headTurnThreshold : ℚ) :
    HeadTurnState :=
  if |yawDelta| < BASE_THRESHOLDS.headReturnDeg then HeadTurnState.center
  else if yawDelta > headTurnThreshold then
    (if headTurnState = HeadTurnState.center then HeadTurnState.right else headTurnState)
  else if yawDelta < -headTurnThreshold then
    (if headTurnState = HeadTurnState.center then HeadTurnState.left else headTurnState)
  else headTurnState

/-- One history push (part_005 lines 239-246): append the new value,
then `shift` the oldest out when the bounded length is exceeded. -/
def pushHistory (history : List ℚ) (value : ℚ) (maxLen : ℕ) : List ℚ :=
  let h := history ++ [value]
  if h.length > maxLen then h.drop 1 else h

/-- Lines 271/273: an open eye clears its closed-since timestamp; a
closed eye keeps whatever was recorded (the successful recording on
lines 270/272 is unreachable — it is the read that throws). -/
def closedSinceUpdate (closed : Bool) (since : Option ℚ) : Option ℚ :=
  if !closed then Option.none else since

/-- The detection half of `processFrame` (part_005 lines 275-509): the
code after the temporal-dead-zone block, taking the frame's already
computed histories, eye-closure bookkeeping, smoothed signals and eye
classifications. -/
def processDetection (cfg : Config) (st : EngineState)
    (leftEarHistory rightEarHistory yawHistory : List ℚ)
    (leftClosedSince rightClosedSince : Option ℚ)
    (smoothLeftEar smoothRightEar smoothYaw : ℚ)
    (leftClosed rightClosed leftOpen rightOpen : Bool)
    (earDifference : ℚ) (dateNow : ℚ) : FrameResult :=
  -- synchronized blink (lines 275-277)
  let bothClosed : Bool := leftClosed && rightClosed &&
    (match leftClosedSince, rightClosedSince with
     | some l, some r => decide (|l - r| ≤ BASE_THRESHOLDS.blinkSyncMs)
     | _, _ => false)
  -- wink classification (lines 282-284); the webcam is mirrored, so the
  -- user's left wink is `rightClosed && leftOpen`
  let sensitivity := cfg.sensitivity
  let winkDiffThreshold := max BASE_THRESHOLDS.diffMin (st.noise.diff * BASE_THRESHOLDS.diffNoiseMult) / sensitivity
  let isLeftWink := rightClosed && leftOpen && decide (earDifference > winkDiffThreshold)
  let isRightWink := leftClosed && rightOpen && decide (earDifference > winkDiffThreshold)
  -- clocks and cooldowns (lines 286-288)
  let now := dateNow
  let inCooldown : Bool := decide (now - st.lastTriggerTime < cfg.cooldownMs)
  let winkCooldown : Bool := decide (now - st.lastWinkTrigger < BASE_THRESHOLDS.winkCooldownMs)
  -- wink state machine (lines 291-315)
  let wm := winkMachine st.winkState st.winkStartTime now winkCooldown isLeftWink isRightWink bothClosed
  let winkTriggered := wm.1
  -- blink tracking (lines 318-326) and pruning (line 329)
  let bu := blinkUpdate st.blinkState st.blinkHistory bothClosed now
  let blinkHistory := bu.2.filter (fun b => decide (now - b.start < 3000))
  -- head-turn machine (lines 331-342)
  let yawDelta := smoothYaw - st.baseline.yaw
  let headTurnThreshold := BASE_THRESHOLDS.headTurnDeg / sensitivity
  let headTurnState := headTurnUpdate st.headTurnState yawDelta headTurnThreshold
  -- trigger arbitration (lines 344-446)
  let dt := detectTriggers cfg now inCooldown st.rearmReady winkTriggered blinkHistory
    headTurnState st.lastHeadTurnTrigger
  let lastWinkTrigger := if (winkArbitrate cfg inCooldown winkTriggered).isSome then now
    else st.lastWinkTrigger
  -- trigger execution (lines 448-462)
  let lastTriggerTime := if dt.1.isSome then now else st.lastTriggerTime
  let blinkHistory := if dt.1.isSome then [] else blinkHistory
  let rearmReady := if dt.1.isSome then false else st.rearmReady
  let openFrames := if dt.1.isSome then 0 else st.openFrames
  -- rearm (lines 464-473)
  let openFrames := if !rearmReady then (if leftOpen && rightOpen then openFrames + 1 else 0)
    else openFrames
  let rearmReady := if !rearmReady then decide (openFrames ≥ BASE_THRESHOLDS.rearmOpenFrames)
    else rearmReady
  -- slow baseline adaptation (lines 476-480)
  let ema := BASE_THRESHOLDS.baselineEma
  let baseline :=
    if leftOpen && rightOpen && !inCooldown then
      { leftEar := st.baseline.leftEar * (1 - ema) + smoothLeftEar * ema
        rightEar := st.baseline.rightEar * (1 - ema) + smoothRightEar * ema
        yaw := st.baseline.yaw * (1 - ema) + smoothYaw * ema }
    else st.baseline
  { st := { st with
      leftEarHistory := leftEarHistory
      rightEarHistory := rightEarHistory
      yawHistory := yawHistory
      leftClosedSince := leftClosedSince
      rightClosedSince := rightClosedSince
      blinkHistory := blinkHistory
      blinkState := bu.1
      winkState := wm.2.1
      winkStartTime := wm.2.2
      lastWinkTrigger := lastWinkTrigger
      headTurnState := dt.2.1
      lastHeadTurnTrigger := dt.2.2
      lastTriggerTime := lastTriggerTime
      rearmReady := rearmReady
      openFrames := openFrames
      baseline := baseline }
    trig := dt.1
    threw := false }

/-- The body of `processFrame` once a face is detected (part_005 lines
232-509), with `st` already carrying the updated `lastFrameTime`. -/
def processFaceFrame (cfg : Config) (st : EngineState) (face : FaceSignals)
    (dateNow : ℚ) : FrameResult :=
  -- histories (lines 239-246): push, then shift when over length
  let leftEarHistory := pushHistory st.leftEarHistory face.leftEar 7
  let rightEarHistory := pushHistory st.rightEarHistory face.rightEar 7
  let yawHistory := pushHistory st.yawHistory face.yaw 5
  -- smoothed values (lines 249-251)
  let smoothLeftEar := median leftEarHistory
  let smoothRightEar := median rightEarHistory
  let smoothYaw := movingAverage yawHistory 3
  -- adaptive thresholds (lines 254-262)
  let sensitivity := cfg.sensitivity
  let leftCloseDrop := max BASE_THRESHOLDS.minEarDrop (st.noise.leftEar * BASE_THRESHOLDS.noiseMultClose) / sensitivity
  let rightCloseDrop := max BASE_THRESHOLDS.minEarDrop (st.noise.rightEar * BASE_THRESHOLDS.noiseMultClose) / sensitivity
  let leftOpenDrop := max BASE_THRESHOLDS.minOpenDrop (st.noise.leftEar * BASE_THRESHOLDS.noiseMultOpen) / sensitivity
  let rightOpenDrop := max BASE_THRESHOLDS.minOpenDrop (st.noise.rightEar * BASE_THRESHOLDS.noiseMultOpen) / sensitivity
  let leftCloseThreshold := st.baseline.leftEar - leftCloseDrop
  let rightCloseThreshold := st.baseline.rightEar - rightCloseDrop
  let leftOpenThreshold := st.baseline.leftEar - leftOpenDrop
  let rightOpenThreshold := st.baseline.rightEar - rightOpenDrop
  -- eye classification (lines 264-267)
  let leftClosed : Bool := decide (smoothLeftEar < leftCloseThreshold)
  let rightClosed : Bool := decide (smoothRightEar < rightCloseThreshold)
  let leftOpen : Bool := decide (smoothLeftEar > leftOpenThreshold)
  let rightOpen : Bool := decide (smoothRightEar > rightOpenThreshold)
  let earDifference := |smoothLeftEar - smoothRightEar|
  -- lines 270-273: these read `now` before its `const` declaration on
  -- line 286.  The reads on lines 270 and 272 are executed exactly when
  -- their guards hold, and each such read throws a ReferenceError,
  -- aborting the frame with the mutations made so far (the history
  -- pushes, and for line 272 also line 271's reset of `leftClosedSince`).
  if leftClosed && st.leftClosedSince.isNone then
    { st := { st with
        leftEarHistory := leftEarHistory
        rightEarHistory := rightEarHistory
        yawHistory := yawHistory }
      trig := Option.none, threw := true }
  else
  let leftClosedSince := closedSinceUpdate leftClosed st.leftClosedSince
  if rightClosed && st.rightClosedSince.isNone then
    { st := { st with
        leftEarHistory := leftEarHistory
        rightEarHistory := rightEarHistory
        yawHistory := yawHistory
        leftClosedSince := leftClosedSince }
      trig := Option.none, threw := true }
  else
  let rightClosedSince := closedSinceUpdate rightClosed st.rightClosedSince
  -- lines 275-509
  processDetection cfg st leftEarHistory rightEarHistory yawHistory
    leftClosedSince rightClosedSince smoothLeftEar smoothRightEar smoothYaw
    leftClosed rightClosed leftOpen rightOpen earDifference dateNow

/-- `processFrame` (part_005 lines 218-510): skip the frame when it
arrives sooner than the target frame interval, record the processing
time, and bail out (updating only the debug display) when no face is
detected. -/
def processFrame (cfg : Config) (st : EngineState) (input : FrameInput) : FrameResult :=
  if input.perfNow - st.lastFrameTime < 1000 / BASE_THRESHOLDS.targetFps then
    { st := st, trig := Option.none, threw := false }
  else
    let st := { st with lastFrameTime := input.perfNow }
    match input.face with
    | Option.none => { st := st, trig := Option.none, threw := false }
    | some face => processFaceFrame cfg st face input.dateNow

/-- A dispatched trigger, timestamped with the frame's `Date.now()`. -/
structure TrigEvent where
  time : ℚ
  dir : Trig
  reason : Gesture
deriving DecidableEq, Repr

/-- Run the engine over a list of frames, collecting the dispatched
triggers and counting the frames that threw. -/
def runEngine (cfg : Config) (st : EngineState) : List FrameInput → EngineState × List TrigEvent × ℕ
  | [] => (st, [], 0)
  | f :: fs =>
    let r := processFrame cfg st f
    let rest := runEngine cfg r.st fs
    (rest.1,
      (match r.trig with
       | some (d, g) => [{ time := f.dateNow, dir := d, reason := g }]
       | Option.none => []) ++ rest.2.1,
      (if r.threw then 1 else 0) + rest.2.2)

/-- `destroyFaceControl` (part_005 lines 709-744): stop the loop, drop
the animation handle, and run the `Reset state` block, which clears the
signal histories, completed-blink history, trigger timers, and the wink
and head-turn machines — and nothing else. -/
def destroyFaceControl (st : EngineState) : EngineState :=
  { st with
    isRunning := false
    isPaused := false
    animationId := Option.none
    blinkHistory := []
    leftEarHistory := []
    rightEarHistory := []
    yawHistory := []
    lastTriggerTime := 0
    headTurnState := HeadTurnState.center
    lastHeadTurnTrigger := 0
    winkState := WinkState.none
    winkStartTime := 0
    lastWinkTrigger := 0 }

/-- One calibration tick's detection result: the signals of the detected
face, or `Option.none` when no face was found that tick. -/
structure CalibSample where
  left : ℚ
  right : ℚ
  yaw : ℚ
deriving DecidableEq, Repr

/-- The calibration-side noise estimate; `stddev` takes a real square
root, so these live in `ℝ`. -/
structure CalibNoise where
  leftEar : ℝ
  rightEar : ℝ
  diff : ℝ
  yaw : ℝ

/-- The initial `noise` values (part_005 lines 58-63) on the calibration
side. -/
noncomputable def defaultCalibNoise : CalibNoise :=
  { leftEar := 0.02, rightEar := 0.02, diff := 0.02, yaw := 0.5 }

/-- The initial `baseline` values (part_005 lines 52-56). -/
def defaultBaseline : Baseline := { leftEar := 0.25, rightEar := 0.25, yaw := 0 }

/-- `calibrateBaseline` (part_005 lines 159-200) with the wall-clock
sampling loop abstracted to the list of its ticks' detection results.  A
tick without a face contributes no sample; each guarded block updates
the baselines / noise floors only when its sample list is nonempty. -/
noncomputable def calibrateBaseline (ticks : List (Option CalibSample))
    (baseline : Baseline) (noise : CalibNoise) : Baseline × CalibNoise :=
  let samples := ticks.filterMap id
  let leftEarSamples := samples.map (fun s => s.left)
  let rightEarSamples := samples.map (fun s => s.right)
  let yawSamples := samples.map (fun s => s.yaw)
  let diffSamples := samples.map (fun s => |s.left - s.right|)
  let baseline :=
    if leftEarSamples.length > 0 then
      { baseline with leftEar := mean leftEarSamples, rightEar := mean rightEarSamples }
    else baseline
  let noise :=
    if leftEarSamples.length > 0 then
      { noise with
        leftEar := max (stddev leftEarSamples) 0.005
        rightEar := max (stddev rightEarSamples) 0.005 }
    else noise
  let baseline :=
    if yawSamples.length > 0 then { baseline with yaw := mean yawSamples } else baseline
  let noise :=
    if yawSamples.length > 0 then { noise with yaw := max (stddev yawSamples) 0.1 } else noise
  let noise :=
    if diffSamples.length > 0 then { noise with diff := max (stddev diffSamples) 0.005 }
    else noise
  (baseline, noise)

/-! ## Structural lemmas about the trigger arbitration -/

lemma winkArbitrate_true {cfg : Config} {wt : Option Gesture} :
    winkArbitrate cfg true wt = Option.none := by
  unfold winkArbitrate
  simp

lemma winkBinding_reason {cfg : Config} {wt : Option Gesture} {d : Trig} {g : Gesture}
    (h : winkBinding cfg wt = some (d, g)) :
    g = Gesture.wink_left ∨ g = Gesture.wink_right := by
  cases wt with
  | none => simp [winkBinding] at h
  | some g' =>
    cases g' <;> simp only [winkBinding] at h <;> (try split_ifs at h) <;> simp_all

lemma winkArbitrate_reason {cfg : Config} {ic : Bool} {wt : Option Gesture} {d : Trig}
    {g : Gesture} (h : winkArbitrate cfg ic wt = some (d, g)) :
    (g = Gesture.wink_left ∨ g = Gesture.wink_right) ∧ ic = false := by
  cases ic
  · rw [winkArbitrate] at h
    simp only [Bool.false_eq_true, if_false] at h
    exact ⟨winkBinding_reason h, rfl⟩
  · rw [winkArbitrate_true] at h
    simp at h

lemma doubleBlinkCandidate_reason {cfg : Config} {bh : List Blink} {now : ℚ} {d : Trig}
    {g : Gesture} (h : doubleBlinkCandidate cfg bh now = some (d, g)) :
    g = Gesture.double_blink := by
  simp only [doubleBlinkCandidate] at h
  split_ifs at h <;> simp_all

lemma longBlinkCandidate_reason {cfg : Config} {bh : List Blink} {now : ℚ} {d : Trig}
    {g : Gesture} (h : longBlinkCandidate cfg bh now = some (d, g)) :
    g = Gesture.long_blink := by
  unfold longBlinkCandidate at h
  repeat' split at h
  all_goals simp_all

lemma headTurnCandidate_reason {cfg : Config} {hts : HeadTurnState} {lht now : ℚ} {d : Trig}
    {g : Gesture} (h : (headTurnCandidate cfg hts lht now).1 = some (d, g)) :
    g = Gesture.head_left ∨ g = Gesture.head_right := by
  simp only [headTurnCandidate] at h
  split_ifs at h <;> simp_all

lemma headTurnCandidate_skip {cfg : Config} {hts : HeadTurnState} {lht now : ℚ}
    (h1 : hts ≠ HeadTurnState.right) (h2 : hts ≠ HeadTurnState.left) :
    headTurnCandidate cfg hts lht now = (Option.none, hts, lht) := by
  simp only [headTurnCandidate]
  split_ifs <;> simp_all

lemma headTurnCandidate_fire_state {cfg : Config} {hts : HeadTurnState} {lht now : ℚ}
    {e : Trig × Gesture} (h : (headTurnCandidate cfg hts lht now).1 = some e) :
    (headTurnCandidate cfg hts lht now).2.1 = HeadTurnState.triggered_left ∨
      (headTurnCandidate cfg hts lht now).2.1 = HeadTurnState.triggered_right := by
  simp only [headTurnCandidate] at h ⊢
  split_ifs at h ⊢ <;> simp_all

lemma headTurnCandidate_none_state {cfg : Config} {hts : HeadTurnState} {lht now : ℚ}
    (h : (headTurnCandidate cfg hts lht now).1 = Option.none) :
    (headTurnCandidate cfg hts lht now).2.1 = hts ∧
      (headTurnCandidate cfg hts lht now).2.2 = lht := by
  simp only [headTurnCandidate] at h ⊢
  split_ifs at h ⊢ <;> simp_all

lemma detectTriggers_cooldown {cfg : Config} {now : ℚ} {ic rr : Bool}
    {wt : Option Gesture} {bh : List Blink} {hts : HeadTurnState} {lht : ℚ}
    {e : Trig × Gesture}
    (h : (detectTriggers cfg now ic rr wt bh hts lht).1 = some e) : ic = false := by
  cases ic
  · rfl
  · unfold detectTriggers at h
    rw [winkArbitrate_true] at h
    simp at h

lemma detectTriggers_rearm {cfg : Config} {now : ℚ} {ic : Bool}
    {wt : Option Gesture} {bh : List Blink} {hts : HeadTurnState} {lht : ℚ}
    {d : Trig} {g : Gesture}
    (h : (detectTriggers cfg now ic false wt bh hts lht).1 = some (d, g)) :
    g = Gesture.wink_left ∨ g = Gesture.wink_right := by
  unfold detectTriggers at h
  rcases hw : winkArbitrate cfg ic wt with _ | e <;> rw [hw] at h
  · simp at h
  · simp only at h
    obtain rfl : e = (d, g) := by simpa using h
    exact (winkArbitrate_reason hw).1

lemma detectTriggers_head_state {cfg : Config} {now : ℚ} {ic rr : Bool}
    {wt : Option Gesture} {bh : List Blink} {hts : HeadTurnState} {lht : ℚ}
    {d : Trig} {g : Gesture}
    (h : (detectTriggers cfg now ic rr wt bh hts lht).1 = some (d, g))
    (hg : g = Gesture.head_left ∨ g = Gesture.head_right) :
    (detectTriggers cfg now ic rr wt bh hts lht).2.1 = HeadTurnState.triggered_left ∨
      (detectTriggers cfg now ic rr wt bh hts lht).2.1 = HeadTurnState.triggered_right := by
  unfold detectTriggers at h ⊢
  rcases hw : winkArbitrate cfg ic wt with _ | e
  · rw [hw] at h
    dsimp only at h ⊢
    split_ifs at h ⊢ with hgate
    rcases hd : doubleBlinkCandidate cfg bh now with _ | e
    · rw [hd] at h
      dsimp only at h ⊢
      rcases hl : longBlinkCandidate cfg bh now with _ | e
      · rw [hl] at h
        dsimp only at h ⊢
        exact headTurnCandidate_fire_state h
      · rw [hl] at h
        obtain rfl : e = (d, g) := by simpa using h
        have := longBlinkCandidate_reason hl
        rcases hg with hg | hg <;> simp_all
    · rw [hd] at h
      obtain rfl : e = (d, g) := by simpa using h
      have := doubleBlinkCandidate_reason hd
      rcases hg with hg | hg <;> simp_all
  · rw [hw] at h
    obtain rfl : e = (d, g) := by simpa using h
    rcases (winkArbitrate_reason hw).1 with h' | h' <;> rcases hg with hg | hg <;> simp_all

lemma detectTriggers_no_head_from {cfg : Config} {now : ℚ} {ic rr : Bool}
    {wt : Option Gesture} {bh : List Blink} {hts : HeadTurnState} {lht : ℚ}
    (h1 : hts ≠ HeadTurnState.right) (h2 : hts ≠ HeadTurnState.left) :
    (∀ d g, (detectTriggers cfg now ic rr wt bh hts lht).1 = some (d, g) →
      g ≠ Gesture.head_left ∧ g ≠ Gesture.head_right) ∧
      (detectTriggers cfg now ic rr wt bh hts lht).2.1 = hts ∧
      (detectTriggers cfg now ic rr wt bh hts lht).2.2 = lht := by
  unfold detectTriggers
  rcases hw : winkArbitrate cfg ic wt with _ | e
  · simp only
    split_ifs with hgate
    · rcases hd : doubleBlinkCandidate cfg bh now with _ | e
      · rcases hl : longBlinkCandidate cfg bh now with _ | e
        · rw [headTurnCandidate_skip h1 h2]
          exact ⟨fun d g h => by simp at h, rfl, rfl⟩
        · refine ⟨fun d g h => ?_, rfl, rfl⟩
          obtain rfl : e = (d, g) := by simpa using h
          have := longBlinkCandidate_reason hl
          simp_all
      · refine ⟨fun d g h => ?_, rfl, rfl⟩
        obtain rfl : e = (d, g) := by simpa using h
        have := doubleBlinkCandidate_reason hd
        simp_all
    · exact ⟨fun d g h => by simp at h, rfl, rfl⟩
  · refine ⟨fun d g h => ?_, rfl, rfl⟩
    obtain rfl : e = (d, g) := by simpa using h
    rcases (winkArbitrate_reason hw).1 with h' | h' <;> simp_all

lemma detectTriggers_none_state {cfg : Config} {now : ℚ} {ic rr : Bool}
    {wt : Option Gesture} {bh : List Blink} {hts : HeadTurnState} {lht : ℚ}
    (h : (detectTriggers cfg now ic rr wt bh hts lht).1 = Option.none) :
    (detectTriggers cfg now ic rr wt bh hts lht).2.1 = hts ∧
      (detectTriggers cfg now ic rr wt bh hts lht).2.2 = lht := by
  unfold detectTriggers at h ⊢
  rcases hw : winkArbitrate cfg ic wt with _ | e
  · rw [hw] at h
    dsimp only at h ⊢
    split_ifs at h ⊢ with hgate
    · rcases hd : doubleBlinkCandidate cfg bh now with _ | e
      · rw [hd] at h
        dsimp only at h ⊢
        rcases hl : longBlinkCandidate cfg bh now with _ | e
        · rw [hl] at h
          dsimp only at h ⊢
          exact headTurnCandidate_none_state h
        · rw [hl] at h
          simp at h
      · rw [hd] at h
        simp at h
    · exact ⟨rfl, rfl⟩
  · rw [hw] at h
    simp at h

lemma detectTriggers_wink_first {cfg : Config} {now : ℚ} {ic rr : Bool}
    {wt : Option Gesture} {bh : List Blink} {hts : HeadTurnState} {lht : ℚ}
    {e : Trig × Gesture} (hw : winkArbitrate cfg ic wt = some e) :
    (detectTriggers cfg now ic rr wt bh hts lht).1 = some e := by
  unfold detectTriggers
  rw [hw]

lemma detectTriggers_double_excl {cfg : Config} {now : ℚ} {ic rr : Bool}
    {wt : Option Gesture} {bh : List Blink} {hts : HeadTurnState} {lht : ℚ}
    {d : Trig}
    (h : (detectTriggers cfg now ic rr wt bh hts lht).1 = some (d, Gesture.double_blink)) :
    winkArbitrate cfg ic wt = Option.none := by
  rcases hw : winkArbitrate cfg ic wt with _ | e
  · rfl
  · obtain rfl : e = (d, Gesture.double_blink) := by
      have := @detectTriggers_wink_first cfg now ic rr wt bh hts lht _ hw
      rw [this] at h
      simpa using h
    rcases (winkArbitrate_reason hw).1 with h' | h' <;> simp_all

lemma detectTriggers_long_excl {cfg : Config} {now : ℚ} {ic rr : Bool}
    {wt : Option Gesture} {bh : List Blink} {hts : HeadTurnState} {lht : ℚ}
    {d : Trig}
    (h : (detectTriggers cfg now ic rr wt bh hts lht).1 = some (d, Gesture.long_blink)) :
    winkArbitrate cfg ic wt = Option.none ∧ doubleBlinkCandidate cfg bh now = Option.none := by
  unfold detectTriggers at h
  rcases hw : winkArbitrate cfg ic wt with _ | e <;> rw [hw] at h
  · simp only at h
    split_ifs at h with hgate
    rcases hd : doubleBlinkCandidate cfg bh now with _ | e <;> rw [hd] at h
    · exact ⟨rfl, rfl⟩
    · obtain rfl : e = (d, Gesture.long_blink) := by simpa using h
      have := doubleBlinkCandidate_reason hd
      simp_all
  · obtain rfl : e = (d, Gesture.long_blink) := by simpa using h
    rcases (winkArbitrate_reason hw).1 with h' | h' <;> simp_all

lemma detectTriggers_head_excl {cfg : Config} {now : ℚ} {ic rr : Bool}
    {wt : Option Gesture} {bh : List Blink} {hts : HeadTurnState} {lht : ℚ}
    {d : Trig} {g : Gesture}
    (h : (detectTriggers cfg now ic rr wt bh hts lht).1 = some (d, g))
    (hg : g = Gesture.head_left ∨ g = Gesture.head_right) :
    winkArbitrate cfg ic wt = Option.none ∧ doubleBlinkCandidate cfg bh now = Option.none ∧
      longBlinkCandidate cfg bh now = Option.none := by
  unfold detectTriggers at h
  rcases hw : winkArbitrate cfg ic wt with _ | e <;> rw [hw] at h
  · simp only at h
    split_ifs at h with hgate
    rcases hd : doubleBlinkCandidate cfg bh now with _ | e <;> rw [hd] at h
    · rcases hl : longBlinkCandidate cfg bh now with _ | e <;> rw [hl] at h
      · exact ⟨rfl, rfl, rfl⟩
      · obtain rfl : e = (d, g) := by simpa using h
        have := longBlinkCandidate_reason hl
        rcases hg with hg | hg <;> simp_all
    · obtain rfl : e = (d, g) := by simpa using h
      have := doubleBlinkCandidate_reason hd
      rcases hg with hg | hg <;> simp_all
  · obtain rfl : e = (d, g) := by simpa using h
    rcases (winkArbitrate_reason hw).1 with h' | h' <;> simp_all

lemma headTurnUpdate_triggered {hts : HeadTurnState} {yawDelta headTurnThreshold : ℚ}
    (h : hts = HeadTurnState.triggered_left ∨ hts = HeadTurnState.triggered_right) :
    headTurnUpdate hts yawDelta headTurnThreshold = hts ∨
      headTurnUpdate hts yawDelta headTurnThreshold = HeadTurnState.center := by
  unfold headTurnUpdate
  rcases h with rfl | rfl <;> split_ifs <;> simp_all

lemma headTurnUpdate_not_side {hts : HeadTurnState} {yawDelta headTurnThreshold : ℚ}
    (h : hts = HeadTurnState.triggered_left ∨ hts = HeadTurnState.triggered_right) :
    headTurnUpdate hts yawDelta headTurnThreshold ≠ HeadTurnState.right ∧
      headTurnUpdate hts yawDelta headTurnThreshold ≠ HeadTurnState.left := by
  unfold headTurnUpdate
  rcases h with rfl | rfl <;> split_ifs <;> simp_all

lemma headTurnUpdate_center_band {hts : HeadTurnState} {yawDelta headTurnThreshold : ℚ}
    (hne : hts ≠ HeadTurnState.center)
    (h : headTurnUpdate hts yawDelta headTurnThreshold = HeadTurnState.center) :
    |yawDelta| < BASE_THRESHOLDS.headReturnDeg := by
  unfold headTurnUpdate at h
  split_ifs at h <;> simp_all

/-! ## Per-frame case analysis of the step function -/

/-- `processDetection` emits exactly the `detectTriggers` output of the
frame's intermediate values, commits the head-turn state it returns, and
moves `lastTriggerTime` to `now` exactly when a trigger fired. -/
lemma processDetection_cases (cfg : Config) (st : EngineState)
    (lh rh yh : List ℚ) (lcs rcs : Option ℚ) (sl sr sy : ℚ)
    (lc rc lo ro : Bool) (ed now : ℚ) :
    ∃ (ic : Bool) (wt : Option Gesture) (bh : List Blink) (yd ht : ℚ),
      ic = decide (now - st.lastTriggerTime < cfg.cooldownMs) ∧
      (processDetection cfg st lh rh yh lcs rcs sl sr sy lc rc lo ro ed now).trig =
        (detectTriggers cfg now ic st.rearmReady wt bh
          (headTurnUpdate st.headTurnState yd ht) st.lastHeadTurnTrigger).1 ∧
      (processDetection cfg st lh rh yh lcs rcs sl sr sy lc rc lo ro ed now).st.headTurnState =
        (detectTriggers cfg now ic st.rearmReady wt bh
          (headTurnUpdate st.headTurnState yd ht) st.lastHeadTurnTrigger).2.1 ∧
      (processDetection cfg st lh rh yh lcs rcs sl sr sy lc rc lo ro ed now).st.lastTriggerTime =
        (if (detectTriggers cfg now ic st.rearmReady wt bh
            (headTurnUpdate st.headTurnState yd ht) st.lastHeadTurnTrigger).1.isSome then
          now else st.lastTriggerTime) := by
  refine ⟨_, _, _, _, _, rfl, rfl, rfl, rfl⟩

/-- Every `processFaceFrame` call either leaves the trigger-related state
alone and emits nothing (the two throwing branches), or its emitted
trigger and updated head-turn state are exactly the output of
`detectTriggers` on the frame's intermediate values. -/
lemma processFaceFrame_cases (cfg : Config) (st : EngineState) (face : FaceSignals)
    (dateNow : ℚ) :
    ((processFaceFrame cfg st face dateNow).trig = Option.none ∧
     (processFaceFrame cfg st face dateNow).st.lastTriggerTime = st.lastTriggerTime ∧
     (processFaceFrame cfg st face dateNow).st.headTurnState = st.headTurnState) ∨
    (∃ (ic : Bool) (wt : Option Gesture) (bh : List Blink) (yd ht : ℚ),
      ic = decide (dateNow - st.lastTriggerTime < cfg.cooldownMs) ∧
      (processFaceFrame cfg st face dateNow).trig =
        (detectTriggers cfg dateNow ic st.rearmReady wt bh
          (headTurnUpdate st.headTurnState yd ht) st.lastHeadTurnTrigger).1 ∧
      (processFaceFrame cfg st face dateNow).st.headTurnState =
        (detectTriggers cfg dateNow ic st.rearmReady wt bh
          (headTurnUpdate st.headTurnState yd ht) st.lastHeadTurnTrigger).2.1 ∧
      (processFaceFrame cfg st face dateNow).st.lastTriggerTime =
        (if (detectTriggers cfg dateNow ic st.rearmReady wt bh
            (headTurnUpdate st.headTurnState yd ht) st.lastHeadTurnTrigger).1.isSome then
          dateNow else st.lastTriggerTime)) := by
  simp only [processFaceFrame]
  split
  · exact Or.inl ⟨rfl, rfl, rfl⟩
  · split
    · exact Or.inl ⟨rfl, rfl, rfl⟩
    · exact Or.inr (processDetection_cases cfg st _ _ _ _ _ _ _ _ _ _ _ _ _ dateNow)

/-- The same case analysis lifted to `processFrame` (adding the
frame-skip and no-face branches, which also emit nothing). -/
lemma processFrame_cases (cfg : Config) (st : EngineState) (input : FrameInput) :
    ((processFrame cfg st input).trig = Option.none ∧
     (processFrame cfg st input).st.lastTriggerTime = st.lastTriggerTime ∧
     (processFrame cfg st input).st.headTurnState = st.headTurnState) ∨
    (∃ (ic : Bool) (wt : Option Gesture) (bh : List Blink) (yd ht : ℚ),
      ic = decide (input.dateNow - st.lastTriggerTime < cfg.cooldownMs) ∧
      (processFrame cfg st input).trig =
        (detectTriggers cfg input.dateNow ic st.rearmReady wt bh
          (headTurnUpdate st.headTurnState yd ht) st.lastHeadTurnTrigger).1 ∧
      (processFrame cfg st input).st.headTurnState =
        (detectTriggers cfg input.dateNow ic st.rearmReady wt bh
          (headTurnUpdate st.headTurnState yd ht) st.lastHeadTurnTrigger).2.1 ∧
      (processFrame cfg st input).st.lastTriggerTime =
        (if (detectTriggers cfg input.dateNow ic st.rearmReady wt bh
            (headTurnUpdate st.headTurnState yd ht) st.lastHeadTurnTrigger).1.isSome then
          input.dateNow else st.lastTriggerTime)) := by
  unfold processFrame
  split
  · exact Or.inl ⟨rfl, rfl, rfl⟩
  · rcases hface : input.face with _ | face
    · exact Or.inl ⟨rfl, rfl, rfl⟩
    · exact processFaceFrame_cases cfg { st with lastFrameTime := input.perfNow } face
        input.dateNow

/-- A frame that emits no trigger leaves `lastTriggerTime` unchanged. -/
lemma processFrame_trig_none {cfg : Config} {st : EngineState} {input : FrameInput}
    (h : (processFrame cfg st input).trig = Option.none) :
    (processFrame cfg st input).st.lastTriggerTime = st.lastTriggerTime := by
  rcases processFrame_cases cfg st input with ⟨-, h2, -⟩ | ⟨ic, wt, bh, yd, ht, -, ht2, -, ht4⟩
  · exact h2
  · rw [ht2] at h
    rw [ht4, h]
    simp

/-- A frame that emits a trigger stamps it with the frame's `Date.now()`
reading and can only do so once the global cooldown has elapsed. -/
lemma processFrame_trig_some {cfg : Config} {st : EngineState} {input : FrameInput}
    {e : Trig × Gesture} (h : (processFrame cfg st input).trig = some e) :
    (processFrame cfg st input).st.lastTriggerTime = input.dateNow ∧
      st.lastTriggerTime + cfg.cooldownMs ≤ input.dateNow := by
  rcases processFrame_cases cfg st input with ⟨h1, -, -⟩ | ⟨ic, wt, bh, yd, ht, hic, ht2, -, ht4⟩
  · rw [h1] at h
    simp at h
  · rw [ht2] at h
    have hic' : ic = false := detectTriggers_cooldown h
    constructor
    · rw [ht4, h]
      simp
    · rw [hic'] at hic
      have := of_decide_eq_false hic.symm
      linarith

/-- When the rearm gate is closed, only a wink can fire. -/
lemma processFrame_rearm {cfg : Config} {st : EngineState} {input : FrameInput}
    {d : Trig} {g : Gesture} (hrr : st.rearmReady = false)
    (h : (processFrame cfg st input).trig = some (d, g)) :
    g = Gesture.wink_left ∨ g = Gesture.wink_right := by
  rcases processFrame_cases cfg st input with ⟨h1, -, -⟩ | ⟨ic, wt, bh, yd, ht, -, ht2, -, -⟩
  · rw [h1] at h
    simp at h
  · rw [ht2] at h
    rw [hrr] at h
    exact detectTriggers_rearm h

/-- A head-turn trigger leaves the head-turn machine in a `triggered_*`
state. -/
lemma processFrame_head_fire {cfg : Config} {st : EngineState} {input : FrameInput}
    {d : Trig} {g : Gesture} (h : (processFrame cfg st input).trig = some (d, g))
    (hg : g = Gesture.head_left ∨ g = Gesture.head_right) :
    (processFrame cfg st input).st.headTurnState = HeadTurnState.triggered_left ∨
      (processFrame cfg st input).st.headTurnState = HeadTurnState.triggered_right := by
  rcases processFrame_cases cfg st input with ⟨h1, -, -⟩ | ⟨ic, wt, bh, yd, ht, -, ht2, ht3, -⟩
  · rw [h1] at h
    simp at h
  · rw [ht2] at h
    rw [ht3]
    exact detectTriggers_head_state h hg

/-- From a `triggered_*` state, no further head-turn trigger can fire,
and the machine either stays put or returns to `center`. -/
lemma processFrame_from_triggered {cfg : Config} {st : EngineState} {input : FrameInput}
    (hpre : st.headTurnState = HeadTurnState.triggered_left ∨
      st.headTurnState = HeadTurnState.triggered_right) :
    (∀ d g, (processFrame cfg st input).trig = some (d, g) →
      ¬(g = Gesture.head_left ∨ g = Gesture.head_right)) ∧
    ((processFrame cfg st input).st.headTurnState = st.headTurnState ∨
      (processFrame cfg st input).st.headTurnState = HeadTurnState.center) := by
  rcases processFrame_cases cfg st input with ⟨h1, -, h3⟩ | ⟨ic, wt, bh, yd, ht, -, ht2, ht3, -⟩
  · refine ⟨fun d g hdg => ?_, Or.inl h3⟩
    rw [h1] at hdg
    simp at hdg
  · have hside := @headTurnUpdate_not_side st.headTurnState yd ht hpre
    have hfrom := @detectTriggers_no_head_from cfg input.dateNow ic st.rearmReady wt bh
      (headTurnUpdate st.headTurnState yd ht) st.lastHeadTurnTrigger hside.1 hside.2
    refine ⟨fun d g hdg => ?_, ?_⟩
    · rw [ht2] at hdg
      have := hfrom.1 d g hdg
      rintro (rfl | rfl) <;> simp_all
    · rw [ht3, hfrom.2.1]
      exact headTurnUpdate_triggered hpre


/-! ## The run-level cooldown invariant -/

/-- Along any run, the emitted triggers are pairwise separated by at
least `cooldownMs`, and every emitted trigger is at least `cooldownMs`
after the `lastTriggerTime` the run started from. -/
lemma runEngine_cooldown_aux (cfg : Config) (hc : 0 ≤ cfg.cooldownMs) :
    ∀ (frames : List FrameInput) (st : EngineState),
      List.Pairwise (fun a b : TrigEvent => cfg.cooldownMs ≤ b.time - a.time)
        (runEngine cfg st frames).2.1 ∧
      (∀ e ∈ (runEngine cfg st frames).2.1, st.lastTriggerTime + cfg.cooldownMs ≤ e.time)
  | [], st => by simp [runEngine]
  | f :: fs, st => by
    have IH := runEngine_cooldown_aux cfg hc fs (processFrame cfg st f).st
    rcases htr : (processFrame cfg st f).trig with _ | ⟨d, g⟩
    · have hlast := processFrame_trig_none htr
      constructor
      · simpa [runEngine, htr] using IH.1
      · intro e he
        simp only [runEngine, htr, List.nil_append] at he
        have := IH.2 e he
        rw [hlast] at this
        exact this
    · obtain ⟨hstamp, hgap⟩ := processFrame_trig_some htr
      constructor
      · simp only [runEngine, htr, List.singleton_append]
        refine List.Pairwise.cons (fun b hb => ?_) IH.1
        have := IH.2 b hb
        rw [hstamp] at this
        simp only
        linarith
      · intro e he
        simp only [runEngine, htr, List.singleton_append, List.mem_cons] at he
        rcases he with rfl | he
        · simpa using hgap
        · have := IH.2 e he
          rw [hstamp] at this
          linarith

/-- A single processed frame emits at most one trigger. -/
lemma runEngine_single_frame (cfg : Config) (st : EngineState) (f : FrameInput) :
    (runEngine cfg st [f]).2.1.length ≤ 1 := by
  rcases htr : (processFrame cfg st f).trig with _ | ⟨d, g⟩ <;>
    simp [runEngine, htr]

/-! ## Concrete inputs used by the claim theorems -/

/-- A frame with both eyes at the resting EAR (0.25) and the given yaw. -/
def yawFrame (perfNow dateNow yaw : ℚ) : FrameInput :=
  { perfNow := perfNow, dateNow := dateNow,
    face := some { leftEar := 0.25, rightEar := 0.25, yaw := yaw } }

/-- A frame with both eyes open at the resting EAR and yaw 0. -/
def openFrame (perfNow dateNow : ℚ) : FrameInput := yawFrame perfNow dateNow 0

/-- A frame with both eyes fully closed (EAR 0). -/
def closedFrame (perfNow dateNow : ℚ) : FrameInput :=
  { perfNow := perfNow, dateNow := dateNow,
    face := some { leftEar := 0, rightEar := 0, yaw := 0 } }

/-- A frame showing the user's left wink: the mirrored right eye closed
(EAR 0), the left eye open at rest, EAR difference 0.25. -/
def winkFrame (perfNow dateNow : ℚ) : FrameInput :=
  { perfNow := perfNow, dateNow := dateNow,
    face := some { leftEar := 0.25, rightEar := 0, yaw := 0 } }

/-- Config binding `next` to a rightward head turn. -/
def headCfg : Config :=
  { sensitivity := 1, cooldownMs := 900,
    triggerNext := Gesture.head_right, triggerPrev := Gesture.long_blink }

/-- Config binding `next` to the user's left wink. -/
def winkCfg : Config :=
  { sensitivity := 1, cooldownMs := 900,
    triggerNext := Gesture.wink_left, triggerPrev := Gesture.long_blink }

/-- A frame with the left eye closed and the right eye open: the first
closed-eye reading a session sees. -/
def c1Frame : FrameInput :=
  { perfNow := 1000, dateNow := 10000,
    face := some { leftEar := 0, rightEar := 0.25, yaw := 0 } }

/-- A synthetic double blink at 40 ms cadence.  Tracking the median of
the eye histories: the eyes classify closed on frames 1-2 (an 80 ms
blink resolving at 10080), open on frames 3-5, closed again on frames
6-7 (the second 80 ms blink, starting 10200 — a 120 ms gap, strictly
between the 80 ms floor and `doubleBlinkWindowMs`), and open on frame 8
(10280), where the second blink resolves.  Under the spec's reading this
must produce exactly one `next` trigger at 10280 with the default
`double_blink` binding. -/
def c4Frames : List FrameInput :=
  [closedFrame 1000 10000, openFrame 1040 10040, openFrame 1080 10080,
   openFrame 1120 10120, closedFrame 1160 10160, closedFrame 1200 10200,
   closedFrame 1240 10240, openFrame 1280 10280]

/-- A synthetic sustained left wink: the mirrored right eye's median
stays closed on frames 1-4 while the left eye stays open, releasing on
frame 5 (10160) — a 160 ms asymmetric closure inside
`[winkMinMs, winkMaxMs]`, so under the spec's reading it must produce
one `next` with `triggerNext = wink_left`. -/
def c7Frames : List FrameInput :=
  [winkFrame 1000 10000, winkFrame 1040 10040, openFrame 1080 10080,
   openFrame 1120 10120, openFrame 1160 10160]

/-- Yaw excursion right, return to center, second excursion beginning
and ending inside the 900 ms cooldown window of the first trigger. -/
def c8ceFrames : List FrameInput :=
  [yawFrame 1000 10000 10, yawFrame 1100 10100 (-10), yawFrame 1200 10200 20]

/-- Yaw excursion right (trigger at 10000), return to center, and a
second excursion at 11000, after both the global and the head-turn
cooldown (900 ms) have elapsed and the rearm gate has reopened. -/
def c8posFrames : List FrameInput :=
  [yawFrame 1000 10000 10, yawFrame 1100 10100 (-10), yawFrame 1200 10200 0,
   yawFrame 2000 11000 30]

/-- An engine state in the middle of a left wink with the rearm gate
still closed from a trigger 5 s ago. -/
def c10state : EngineState :=
  { initState with
    winkState := WinkState.left_winking
    winkStartTime := 9900
    rearmReady := false
    lastTriggerTime := 5000 }

/-- Two completed short blinks 200 ms apart, the second just ended. -/
def c3blinks : List Blink :=
  [{ start := 9500, stop := some 9600 }, { start := 9800, stop := some 9900 }]

/-- An engine state captured mid-blink with the rearm gate closed: what
the module state looks like if the session is destroyed at that moment. -/
def staleState : EngineState :=
  { initState with
    blinkState := some { start := 100, stop := Option.none }
    leftClosedSince := some 50
    rightClosedSince := some 60
    openFrames := 2
    rearmReady := false
    lastFrameTime := 777 }


/-! ## Claim theorems

The concrete evaluations below reduce rational arithmetic inside the
kernel, so the arithmetic operations on `Rat` must be unfolded past
their default irreducibility. -/

attribute [local semireducible] Rat.add Rat.mul Rat.sub Rat.inv Rat.ofScientific

set_option maxRecDepth 10000

/-- C1 (code bug): the spec says steady-state `processFrame` calls never
throw, but lines 270-273 read `now` before its `const now = Date.now()`
declaration on line 286 — a temporal-dead-zone ReferenceError.  From the
freshly calibrated state, the very first frame whose left eye is
classified closed makes `processFrame` throw and emit nothing. -/
theorem c1_processFrame_throws :
    (processFrame defaultConfig initState c1Frame).threw = true ∧
    (processFrame defaultConfig initState c1Frame).trig = Option.none := by
  decide

/-- C2: for every config with `sensitivity > 0` and `cooldownMs ≥ 0`,
every starting engine state and every input frame sequence, any two
triggers emitted by the run are separated by at least `cooldownMs`
between their timestamps. -/
theorem c2_cooldown_spacing (cfg : Config) (st : EngineState)
    (frames : List FrameInput) (hc : 0 ≤ cfg.cooldownMs)
    (_hs : 0 < cfg.sensitivity) :
    List.Pairwise (fun a b : TrigEvent => cfg.cooldownMs ≤ b.time - a.time)
      (runEngine cfg st frames).2.1 :=
  (runEngine_cooldown_aux cfg hc frames st).1

theorem c2_cooldown_spacing_witness :
    (0 : ℚ) ≤ headCfg.cooldownMs ∧ (0 : ℚ) < headCfg.sensitivity ∧
    List.Pairwise (fun a b : TrigEvent => headCfg.cooldownMs ≤ b.time - a.time)
      (runEngine headCfg initState c8posFrames).2.1 :=
  ⟨by norm_num [headCfg], by norm_num [headCfg],
    c2_cooldown_spacing headCfg initState c8posFrames (by norm_num [headCfg])
      (by norm_num [headCfg])⟩

/-- C3: a processed frame emits at most one navigation trigger, and the
candidates are arbitrated in the fixed priority order wink, then double
blink, then long blink, then head turn: the arbitration returns the wink
result whenever one fired; a double-blink trigger implies the wink
arbitration came up empty; a long-blink trigger additionally implies no
double-blink candidate fired; and a head-turn trigger implies none of
wink, double blink or long blink fired on that frame. -/
theorem c3_single_trigger_priority :
    (∀ (cfg : Config) (st : EngineState) (f : FrameInput),
      (runEngine cfg st [f]).2.1.length ≤ 1) ∧
    (∀ (cfg : Config) (now : ℚ) (ic rr : Bool) (wt : Option Gesture)
        (bh : List Blink) (hts : HeadTurnState) (lht : ℚ) (e : Trig × Gesture),
      winkArbitrate cfg ic wt = some e →
      (detectTriggers cfg now ic rr wt bh hts lht).1 = some e) ∧
    (∀ (cfg : Config) (now : ℚ) (ic rr : Bool) (wt : Option Gesture)
        (bh : List Blink) (hts : HeadTurnState) (lht : ℚ) (d : Trig),
      (detectTriggers cfg now ic rr wt bh hts lht).1 = some (d, Gesture.double_blink) →
      winkArbitrate cfg ic wt = Option.none) ∧
    (∀ (cfg : Config) (now : ℚ) (ic rr : Bool) (wt : Option Gesture)
        (bh : List Blink) (hts : HeadTurnState) (lht : ℚ) (d : Trig),
      (detectTriggers cfg now ic rr wt bh hts lht).1 = some (d, Gesture.long_blink) →
      winkArbitrate cfg ic wt = Option.none ∧
        doubleBlinkCandidate cfg bh now = Option.none) ∧
    (∀ (cfg : Config) (now : ℚ) (ic rr : Bool) (wt : Option Gesture)
        (bh : List Blink) (hts : HeadTurnState) (lht : ℚ) (d : Trig) (g : Gesture),
      (detectTriggers cfg now ic rr wt bh hts lht).1 = some (d, g) →
      (g = Gesture.head_left ∨ g = Gesture.head_right) →
      winkArbitrate cfg ic wt = Option.none ∧
        doubleBlinkCandidate cfg bh now = Option.none ∧
        longBlinkCandidate cfg bh now = Option.none) :=
  ⟨runEngine_single_frame,
   fun _ _ _ _ _ _ _ _ _ hw => detectTriggers_wink_first hw,
   fun _ _ _ _ _ _ _ _ _ h => detectTriggers_double_excl h,
   fun _ _ _ _ _ _ _ _ _ h => detectTriggers_long_excl h,
   fun _ _ _ _ _ _ _ _ _ _ h hg => detectTriggers_head_excl h hg⟩

theorem c3_single_trigger_priority_witness :
    (runEngine defaultConfig initState [openFrame 1000 10000]).2.1.length ≤ 1 ∧
    (detectTriggers defaultConfig 10000 false true Option.none c3blinks
      HeadTurnState.center 0).1 = some (Trig.next, Gesture.double_blink) ∧
    winkArbitrate defaultConfig false Option.none = Option.none :=
  ⟨c3_single_trigger_priority.1 defaultConfig initState (openFrame 1000 10000),
   by decide,
   c3_single_trigger_priority.2.2.1 defaultConfig 10000 false true Option.none
     c3blinks HeadTurnState.center 0 Trig.next (by decide)⟩

/-- C4 (code bug): on the synthetic double-blink sequence that the spec
says must yield exactly one `next` trigger at the second blink's
resolution (default `triggerNext = double_blink`), the engine emits no
trigger at all: every frame with a closed-eye classification throws the
temporal-dead-zone ReferenceError (4 of the 8 frames), so no blink is
ever recorded. -/
theorem c4_double_blink_run_throws :
    (runEngine defaultConfig initState c4Frames).2 = ([], 4) := by
  decide

/-- C5: a calibration window whose every tick found no face terminates
(it is a total function) and leaves Baseline and NoiseEstimate at their
built-in defaults; moreover a no-face tick anywhere in the window
contributes no sample at all — removing it changes nothing. -/
theorem c5_calibration_no_face :
    (∀ ticks : List (Option CalibSample), (∀ t ∈ ticks, t = Option.none) →
      calibrateBaseline ticks defaultBaseline defaultCalibNoise =
        (defaultBaseline, defaultCalibNoise)) ∧
    (∀ (pre post : List (Option CalibSample)) (b : Baseline) (n : CalibNoise),
      calibrateBaseline (pre ++ Option.none :: post) b n =
        calibrateBaseline (pre ++ post) b n) := by
  constructor
  · intro ticks h
    have hs : ticks.filterMap id = [] := by
      rw [List.filterMap_eq_nil_iff]
      intro a ha
      rw [h a ha]
      rfl
    unfold calibrateBaseline
    rw [hs]
    simp
  · intro pre post b n
    unfold calibrateBaseline
    rw [show (pre ++ Option.none :: post).filterMap id = (pre ++ post).filterMap id by
      simp]

theorem c5_calibration_no_face_witness :
    calibrateBaseline [Option.none, Option.none] defaultBaseline defaultCalibNoise =
      (defaultBaseline, defaultCalibNoise) ∧
    calibrateBaseline [Option.none] defaultBaseline defaultCalibNoise =
      calibrateBaseline [] defaultBaseline defaultCalibNoise :=
  ⟨c5_calibration_no_face.1 [Option.none, Option.none] (by simp),
   c5_calibration_no_face.2 [] [] defaultBaseline defaultCalibNoise⟩

/-- C6 counterexample: with a zero-distance horizontal eye width the EAR
computation does not return a safe default such as 0 — JS division by
zero yields Infinity (there is no guard in `eyeAspectRatio`). -/
theorem c6_ear_zero_width_counterexample :
    eyeAspectRatio 1 1 0 = JsNum.inf ∧ JsNum.inf ≠ JsNum.fin 0 := by
  decide

/-- C6 amended: the smoothing helpers return the safe default 0 on a
zero-length history (and `stddev` also on a singleton), but the EAR
computation with a zero horizontal denominator returns Infinity (NaN if
the vertical distances are also zero), not a safe default. -/
theorem c6_degenerate_inputs :
    (∀ w : ℕ, movingAverage [] w = 0) ∧ median [] = 0 ∧ mean [] = 0 ∧
    stddev [] = 0 ∧ (∀ q : ℚ, stddev [q] = 0) ∧
    (∀ verticalA verticalB : ℚ, 0 ≤ verticalA → 0 ≤ verticalB →
      eyeAspectRatio verticalA verticalB 0 =
        (if verticalA + verticalB = 0 then JsNum.nan else JsNum.inf)) := by
  refine ⟨fun w => by simp [movingAverage], by simp [median], by simp [mean],
    by simp [stddev], fun q => by simp [stddev], ?_⟩
  intro vA vB hA hB
  unfold eyeAspectRatio jsDiv
  rw [mul_zero, if_pos rfl]
  by_cases h : vA + vB = 0
  · rw [if_pos h, if_pos h]
  · rw [if_neg h, if_neg h, if_pos (lt_of_le_of_ne (by linarith) (Ne.symm h))]

theorem c6_degenerate_inputs_witness :
    movingAverage [] 5 = 0 ∧ stddev [] = 0 ∧
    eyeAspectRatio 2 0 0 = JsNum.inf := by
  refine ⟨c6_degenerate_inputs.1 5, c6_degenerate_inputs.2.2.2.1, ?_⟩
  have h := c6_degenerate_inputs.2.2.2.2.2 2 0 (by norm_num) (by norm_num)
  rw [if_neg (by norm_num)] at h
  exact h

/-- C7 (code bug): on the synthetic sustained left wink that the spec
says must yield exactly one `next` with `triggerNext = wink_left`, the
engine emits nothing: each frame whose (mirrored) right eye is
classified closed makes line 272 read `now` in its temporal dead zone
and throw (4 of the 5 frames); the wink state machine never runs. -/
theorem c7_wink_run_throws :
    (runEngine winkCfg initState c7Frames).2 = ([], 4) := by
  decide

/-- C8 counterexample: a yaw excursion past the turn threshold (frame 1,
leaving the machine in `triggered_right`), a return into the
return-to-center band (frame 2, machine back to `center`), and a second
excursion past the threshold (frame 3) — but the second excursion falls
inside the 900 ms global cooldown of the first trigger and ends with the
run, so the engine fires one head-turn trigger, not two. -/
theorem c8_two_excursions_one_trigger :
    (runEngine headCfg initState (c8ceFrames.take 1)).1.headTurnState =
      HeadTurnState.triggered_right ∧
    (runEngine headCfg initState (c8ceFrames.take 2)).1.headTurnState =
      HeadTurnState.center ∧
    (runEngine headCfg initState c8ceFrames).2.1 =
      [{ time := 10000, dir := Trig.next, reason := Gesture.head_right }] := by
  refine ⟨by decide, by decide, by decide⟩

/-- C8 amended: a head-turn trigger moves the machine to a `triggered_*`
state; from a `triggered_*` state no further head-turn trigger can fire
and the machine only leaves it by re-entering the return-to-center band
(|yawDelta| < headReturnDeg); holding the yaw past the threshold
therefore fires at most once per excursion.  Two excursions separated by
a return to center fire two triggers provided the second arrives after
the global and head-turn cooldowns have elapsed (and the rearm gate has
reopened), as the concrete run shows. -/
theorem c8_head_turn_amended :
    (∀ (cfg : Config) (st : EngineState) (input : FrameInput) (d : Trig) (g : Gesture),
      (processFrame cfg st input).trig = some (d, g) →
      (g = Gesture.head_left ∨ g = Gesture.head_right) →
      (processFrame cfg st input).st.headTurnState = HeadTurnState.triggered_left ∨
        (processFrame cfg st input).st.headTurnState = HeadTurnState.triggered_right) ∧
    (∀ (cfg : Config) (st : EngineState) (input : FrameInput),
      (st.headTurnState = HeadTurnState.triggered_left ∨
        st.headTurnState = HeadTurnState.triggered_right) →
      (∀ d g, (processFrame cfg st input).trig = some (d, g) →
        ¬(g = Gesture.head_left ∨ g = Gesture.head_right)) ∧
      ((processFrame cfg st input).st.headTurnState = st.headTurnState ∨
        (processFrame cfg st input).st.headTurnState = HeadTurnState.center)) ∧
    (∀ (hts : HeadTurnState) (yawDelta headTurnThreshold : ℚ),
      hts ≠ HeadTurnState.center →
      headTurnUpdate hts yawDelta headTurnThreshold = HeadTurnState.center →
      |yawDelta| < BASE_THRESHOLDS.headReturnDeg) ∧
    ((runEngine headCfg initState c8posFrames).2.1 =
      [{ time := 10000, dir := Trig.next, reason := Gesture.head_right },
       { time := 11000, dir := Trig.next, reason := Gesture.head_right }]) :=
  ⟨fun _ _ _ _ _ h hg => processFrame_head_fire h hg,
   fun _ _ _ hpre => processFrame_from_triggered hpre,
   fun _ _ _ hne h => headTurnUpdate_center_band hne h,
   by decide⟩

theorem c8_head_turn_amended_witness :
    (processFrame headCfg initState (yawFrame 1000 10000 10)).trig =
      some (Trig.next, Gesture.head_right) ∧
    ((processFrame headCfg initState (yawFrame 1000 10000 10)).st.headTurnState =
        HeadTurnState.triggered_left ∨
      (processFrame headCfg initState (yawFrame 1000 10000 10)).st.headTurnState =
        HeadTurnState.triggered_right) :=
  ⟨by decide,
   c8_head_turn_amended.1 headCfg initState (yawFrame 1000 10000 10) Trig.next
     Gesture.head_right (by decide) (Or.inr rfl)⟩

/-- C9 counterexample: destroying a session captured mid-blink leaves
the open blink record, the per-eye closed-since stamps, the rearm
counters and the frame-limiter timestamp in place — `destroyFaceControl`
does not reset every piece of mutable engine state. -/
theorem c9_destroy_counterexample :
    (destroyFaceControl staleState).blinkState =
      some { start := 100, stop := Option.none } ∧
    (destroyFaceControl staleState).rearmReady = false ∧
    (destroyFaceControl staleState).openFrames = 2 ∧
    (destroyFaceControl staleState).leftClosedSince = some 50 ∧
    (destroyFaceControl staleState).lastFrameTime = 777 := by
  decide

/-- C9 amended: `destroyFaceControl` stops the loop (`isRunning` false,
animation handle cleared) and resets the signal histories, the completed
blink history, the trigger/cooldown timers and the wink and head-turn
machines, but preserves — field by field — the in-progress blink record,
the per-eye closed-since timestamps, the rearm state, the frame-rate
limiter timestamp and the calibrated baseline/noise, which survive into
a restarted session. -/
theorem c9_destroy_characterization (st : EngineState) :
    (destroyFaceControl st).isRunning = false ∧
    (destroyFaceControl st).isPaused = false ∧
    (destroyFaceControl st).animationId = Option.none ∧
    (destroyFaceControl st).blinkHistory = [] ∧
    (destroyFaceControl st).leftEarHistory = [] ∧
    (destroyFaceControl st).rightEarHistory = [] ∧
    (destroyFaceControl st).yawHistory = [] ∧
    (destroyFaceControl st).lastTriggerTime = 0 ∧
    (destroyFaceControl st).headTurnState = HeadTurnState.center ∧
    (destroyFaceControl st).lastHeadTurnTrigger = 0 ∧
    (destroyFaceControl st).winkState = WinkState.none ∧
    (destroyFaceControl st).winkStartTime = 0 ∧
    (destroyFaceControl st).lastWinkTrigger = 0 ∧
    (destroyFaceControl st).blinkState = st.blinkState ∧
    (destroyFaceControl st).leftClosedSince = st.leftClosedSince ∧
    (destroyFaceControl st).rightClosedSince = st.rightClosedSince ∧
    (destroyFaceControl st).openFrames = st.openFrames ∧
    (destroyFaceControl st).rearmReady = st.rearmReady ∧
    (destroyFaceControl st).lastFrameTime = st.lastFrameTime ∧
    (destroyFaceControl st).baseline = st.baseline ∧
    (destroyFaceControl st).noise = st.noise :=
  ⟨rfl, rfl, rfl, rfl, rfl, rfl, rfl, rfl, rfl, rfl, rfl, rfl, rfl, rfl, rfl,
   rfl, rfl, rfl, rfl, rfl, rfl⟩

/-- C10: the rearm-after-open-frames gate applies to double-blink,
long-blink and head-turn triggers but not to winks: whenever
`rearmReady` is false, any trigger a frame emits is a wink; and in a
state with `rearmReady = false` and the global cooldown elapsed, a wink
candidate matching the `triggerNext` binding does fire. -/
theorem c10_rearm_gate :
    (∀ (cfg : Config) (st : EngineState) (input : FrameInput) (d : Trig) (g : Gesture),
      st.rearmReady = false → (processFrame cfg st input).trig = some (d, g) →
      g = Gesture.wink_left ∨ g = Gesture.wink_right) ∧
    (c10state.rearmReady = false ∧
      winkCfg.cooldownMs ≤ (10000 : ℚ) - c10state.lastTriggerTime ∧
      (processFrame winkCfg c10state (openFrame 1000 10000)).trig =
        some (Trig.next, Gesture.wink_left)) :=
  ⟨fun _ _ _ _ _ h1 h2 => processFrame_rearm h1 h2, rfl, by decide, by decide⟩

theorem c10_rearm_gate_witness :
    c10state.rearmReady = false ∧
    (Gesture.wink_left = Gesture.wink_left ∨ Gesture.wink_left = Gesture.wink_right) :=
  ⟨rfl, c10_rearm_gate.1 winkCfg c10state (openFrame 1000 10000) Trig.next
    Gesture.wink_left rfl (by decide)⟩

end MusicReader
